import Mathlib

/-!
Verification of the kinetic-rate-constant calculator
(`src/rate-constant-calculation.py`) against its natural-language
specification.

The script has two algorithmic parts:

* a **normalizer** (lines 50-69): the pasted rows are split into cells,
  loaded into a two-column `pandas` DataFrame, converted with
  `pd.to_numeric`, NaN rows are dropped with `df.dropna()` and the frame
  is sorted ascending by time with `df.sort_values(by="Time")`;

* a **calculation engine** (lines 71-116): three `scipy.stats.linregress`
  fits — zeroth order on `(t, c)`, first order on `(t, ln c)` over the
  rows with `c > 0`, second order on `(t, 1/c)` over the rows with
  `c ≠ 0` — followed by a results dictionary holding, per model, the
  squared correlation R², the rate constant `k` (a signed copy of the
  slope), a formatted integrated-rate equation, and finally
  `best_order = max(results, key=...)`.

Numbers are modelled by exact rationals `ℚ`.  Floating-point rounding is
abstracted away; the IEEE special values that the pandas layer can
produce are modelled explicitly by the `PFloat` type, and the float NaN
that `linregress` produces from a `0/0` slope (a single-point input) is
modelled by `Option ℚ` with `none` for NaN.  The natural logarithm used
by the first-order transform is irrational-valued, so the engine is
parametrised by an arbitrary function `log : ℚ → ℚ` standing for
`np.log`; every theorem below is proved uniformly in `log`, hence holds
in particular for the real logarithm.
-/

namespace RateCalc

/-- A floating-point value as it sits in a pandas column after
`pd.to_numeric`: either a finite value (modelled exactly as a rational),
or one of the IEEE specials NaN, `+inf`, `-inf`.  Note that
`pd.to_numeric` parses the literal tokens `"nan"`, `"inf"` and `"-inf"`
to these specials without raising. -/
inductive PFloat where
  | fin (q : ℚ)
  | nan
  | inf
  | ninf
deriving DecidableEq

/-- Model of `np.isfinite`: only ordinary numbers are finite; NaN and the two
infinities are not. -/
def PFloat.isFinite : PFloat → Bool
  | .fin _ => true
  | _ => false

/-- Model of `pd.isna` on a float cell: true exactly on NaN. -/
def PFloat.isNan : PFloat → Bool
  | .nan => true
  | _ => false

/-- Rank used to compare pandas float cells when sorting: `-inf` below
every finite value, `+inf` above, NaN last (numpy sorts NaN to the end;
after `dropna` no NaN remains, so that branch is unreachable here). -/
def PFloat.rank : PFloat → ℕ
  | .ninf => 0
  | .fin _ => 1
  | .inf => 2
  | .nan => 3

/-- The finite payload of a cell (0 for the specials; only compared
between two finite cells). -/
def PFloat.val : PFloat → ℚ
  | .fin q => q
  | _ => 0

/-- Less-or-equal on pandas float cells, as numpy's sort orders them. -/
def PFloat.leb (a b : PFloat) : Bool :=
  if a.rank < b.rank then true
  else if b.rank < a.rank then false
  else decide (a.val ≤ b.val)

/-- One whitespace/comma-split cell of a pasted input row, as seen by
`pd.to_numeric`: either the token parses to a float — numeric literals,
but also the tokens `"nan"`, `"inf"`, `"-inf"`, which parse to the IEEE
specials — or it is non-numeric and `pd.to_numeric` raises a
`ValueError` for it. -/
inductive Cell where
  | num (v : PFloat)
  | bad
deriving DecidableEq

/-- The float behind a numeric cell (NaN for a non-numeric cell; only
used on rows already known to be numeric). -/
def Cell.val : Cell → PFloat
  | .num v => v
  | .bad => .nan

/-- Which DataFrame column `pd.to_numeric` was processing when it
raised. -/
inductive ColName where
  | time
  | conc
deriving DecidableEq

/-- The exceptions the parsing block (lines 52-66) can catch: a shape
failure in the `pd.DataFrame(data_rows, columns=["Time","Conc"])`
constructor when a row does not have exactly two cells, or a
`pd.to_numeric` failure naming the column and the position of the first
non-numeric token in it. -/
inductive DataError where
  | columnMismatch
  | unableToParse (col : ColName) (pos : ℕ)
deriving DecidableEq

/-- Model of `pd.to_numeric` over one column, starting at position `i`: returns
the parsed floats, or the position of the first non-numeric cell. -/
def toNumericColAux : ℕ → List Cell → Except ℕ (List PFloat)
  | _, [] => .ok []
  | i, Cell.num v :: t => (toNumericColAux (i + 1) t).map (fun l => v :: l)
  | i, Cell.bad :: _ => .error i

/-- Model of `pd.to_numeric` over a whole column. -/
def toNumericCol (l : List Cell) : Except ℕ (List PFloat) :=
  toNumericColAux 0 l

/-- A parsed row as a (Time, Conc) pair; rows are only turned into pairs
after the DataFrame constructor has checked they have exactly two
cells, so the default branch is unreachable. -/
def rowToPair : List Cell → Cell × Cell
  | [a, b] => (a, b)
  | _ => (Cell.bad, Cell.bad)

/-- Model of `df.dropna()`: drop every row in which the time or the concentration
cell is NaN.  Infinities are not NaN and are kept. -/
def dropna (df : List (PFloat × PFloat)) : List (PFloat × PFloat) :=
  df.filter (fun p => !(p.1.isNan || p.2.isNan))

/-- Insert a row into a time-sorted list, after all rows whose time is
less than or equal to its own. -/
def insertByTime (p : PFloat × PFloat) : List (PFloat × PFloat) → List (PFloat × PFloat)
  | [] => [p]
  | q :: t => if PFloat.leb q.1 p.1 then q :: insertByTime p t else p :: q :: t

/-- Model of `df.sort_values(by="Time")`: ascending sort on the time column,
modelled as an insertion sort.  The source uses pandas' default
`kind='quicksort'` (numpy introsort), whose ordering of rows with equal
time values is implementation-defined; this model is a stable sort, and
no theorem below about `normalize` depends on the order of equal-time
rows. -/
def sortByTime (l : List (PFloat × PFloat)) : List (PFloat × PFloat) :=
  l.foldr insertByTime []

/-- The DataSet Normalizer, lines 52-64 of the source: build the
two-column frame (raising on a row whose cell count is not two), run
`pd.to_numeric` on the Time column and then on the Conc column (raising
at the first non-numeric token), drop NaN rows, sort ascending by
time.  Any raised exception rejects the whole batch: no partial
output. -/
def normalize (rows : List (List Cell)) : Except DataError (List (PFloat × PFloat)) :=
  if rows.all (fun r => r.length == 2) then
    let pairs := rows.map rowToPair
    match toNumericCol (pairs.map Prod.fst), toNumericCol (pairs.map Prod.snd) with
    | .error i, _ => .error (.unableToParse .time i)
    | .ok _, .error i => .error (.unableToParse .conc i)
    | .ok ts, .ok cs => .ok (sortByTime (dropna (ts.zip cs)))
  else .error .columnMismatch

/-! ### The calculation engine -/

/-- The two `ValueError`s that `scipy.stats.linregress` can raise:
"Inputs must not be empty." on an empty input, and "Cannot calculate a
linear regression if all x values are identical" when `amax(x) ==
amin(x)` and `len(x) > 1`.  In the script these are uncaught (the
`try/except` only wraps parsing), so either aborts the whole
calculation section. -/
inductive RegError where
  | emptyInput
  | identicalX
deriving DecidableEq

/-- The fields of a `scipy.stats.linregress` result that the script
uses.  `slope`/`intercept` are `none` when scipy's float computation
produces NaN, which happens exactly when `ssxm = 0` (a single-point
input, since the identical-x guard has already ruled out `n > 1`):
scipy then computes `slope = ssxym/ssxm = 0/0 = nan`.  `rsq` is
`rvalue**2`, the only use the script makes of `rvalue`; `rvalue` itself
involves a real square root, but its square is rational. -/
structure LinResult where
  slope : Option ℚ
  intercept : Option ℚ
  rsq : ℚ
deriving DecidableEq

/-- Model of `np.mean`. -/
def mean (l : List ℚ) : ℚ := l.sum / l.length

/-- Model of `np.amax` (0 on the empty list, which scipy never reaches). -/
def amax : List ℚ → ℚ
  | [] => 0
  | a :: t => t.foldl max a

/-- Model of `np.amin` (0 on the empty list, which scipy never reaches). -/
def amin : List ℚ → ℚ
  | [] => 0
  | a :: t => t.foldl min a

/-- Quantity `ssxm` from `np.cov(x, y, bias=1)`: the biased variance of one
column, `mean((x - mean x)^2)`. -/
def ssvar (x : List ℚ) : ℚ := mean (x.map (fun a => (a - mean x) ^ 2))

/-- Quantity `ssxym` from `np.cov(x, y, bias=1)`: the biased covariance
`mean((x - mean x) * (y - mean y))`. -/
def sscov (x y : List ℚ) : ℚ :=
  mean (List.zipWith (fun a b => (a - mean x) * (b - mean y)) x y)

/-- Model of `scipy.stats.linregress(x, y)`:

* raises `ValueError` on empty input;
* raises `ValueError` when all x values are identical and `len(x) > 1`;
* computes `ssxm, ssxym, ssym` from `np.cov(x, y, bias=1)`;
* `r = 0` when `ssxm = 0` or `ssym = 0`, else
  `r = ssxym / sqrt(ssxm*ssym)` clamped into `[-1, 1]` — its square,
  the only quantity the script uses, is `min 1 (ssxym^2/(ssxm*ssym))`;
* `slope = ssxym / ssxm` (float NaN when `ssxm = 0`, modelled `none`),
  `intercept = mean y - slope * mean x`. -/
def linregress (x y : List ℚ) : Except RegError LinResult :=
  if x.length = 0 ∨ y.length = 0 then .error .emptyInput
  else if amax x = amin x ∧ 1 < x.length then .error .identicalX
  else
    let sx := ssvar x
    let sy := ssvar y
    let sxy := sscov x y
    let rsq := if sx = 0 ∨ sy = 0 then 0 else min 1 (sxy ^ 2 / (sx * sy))
    let slope : Option ℚ := if sx = 0 then none else some (sxy / sx)
    let intercept : Option ℚ := slope.map (fun m => mean y - m * mean x)
    .ok ⟨slope, intercept, rsq⟩

/-- The sign hard-coded in a model's integrated-equation f-string:
`"... - {abs(slope):.4f} t"` for zeroth and first order,
`"... + {abs(slope):.4f} t"` for second order. -/
inductive Sign where
  | minus
  | plus
deriving DecidableEq

/-- The structure of one formatted integrated-rate-equation string,
e.g. `f"[A] = {reg0.intercept:.4f} - {abs(reg0.slope):.4f} t"`: the
left-hand-side label, the intercept printed with its own sign, the
hard-coded sign token, and the printed magnitude `abs(slope)`.  The
`:.4f` decimal rounding of the two numbers is abstracted away. -/
structure Eqn where
  lhs : String
  intercept : Option ℚ
  sign : Sign
  coeff : Option ℚ
deriving DecidableEq

/-- The slope of the straight line the formatted equation displays:
`- coeff` when the hard-coded sign is `-`, `+ coeff` when it is `+`. -/
def displayedSlope (e : Eqn) : Option ℚ :=
  match e.sign with
  | .minus => e.coeff.map (fun m => -m)
  | .plus => e.coeff

/-- One entry of the `results` dictionary (lines 93-112): `R2`, `k`,
`eqn`, `linear_y`. -/
structure ModelResult where
  R2 : ℚ
  k : Option ℚ
  eqn : Eqn
  linearY : String
deriving DecidableEq

/-- The three order labels, in the insertion order of the `results`
dictionary. -/
inductive OrderName where
  | zeroth
  | first
  | second
deriving DecidableEq

/-- Line 115, `best_order = max(results, key=lambda x: results[x]["R2"])`:
Python's `max` walks the keys in dictionary insertion order — Zeroth,
First, Second — keeping the current maximum and replacing it only on a
strictly greater key value, so on ties the earliest key wins. -/
def bestOrder (r0 r1 r2 : ℚ) : OrderName :=
  let b1 := if r1 > r0 then OrderName.first else OrderName.zeroth
  let k1 := if r1 > r0 then r1 else r0
  if r2 > k1 then OrderName.second else b1

/-- Line 80, `df_log = df[df["Conc"] > 0]`: the first-order model's
sample subset. -/
def df_log (s : List (ℚ × ℚ)) : List (ℚ × ℚ) :=
  s.filter (fun p => decide (0 < p.2))

/-- Line 87, `df_inv = df[df["Conc"] != 0]`: the second-order model's
sample subset. -/
def df_inv (s : List (ℚ × ℚ)) : List (ℚ × ℚ) :=
  s.filter (fun p => decide (p.2 ≠ 0))

/-- Everything the calculation section computes: the three raw
regression results and the `results` dictionary entries, plus
`best_order`. -/
structure EvalResult where
  reg0 : LinResult
  reg1 : LinResult
  reg2 : LinResult
  zeroth : ModelResult
  first : ModelResult
  second : ModelResult
  best : OrderName
deriving DecidableEq

/-- Lines 93-116: build the `results` dictionary from the three
regressions and select `best_order`.  `k` is `-slope` for zeroth and
first order and `slope` for second order; each `eqn` embeds the
intercept and `abs(slope)` with the hard-coded sign of its f-string. -/
def mkEval (r0 r1 r2 : LinResult) : EvalResult :=
  { reg0 := r0
    reg1 := r1
    reg2 := r2
    zeroth :=
      { R2 := r0.rsq
        k := r0.slope.map (fun m => -m)
        eqn := { lhs := "[A] =", intercept := r0.intercept, sign := .minus,
                 coeff := r0.slope.map (fun m => |m|) }
        linearY := "Concentration [A]" }
    first :=
      { R2 := r1.rsq
        k := r1.slope.map (fun m => -m)
        eqn := { lhs := "ln[A] =", intercept := r1.intercept, sign := .minus,
                 coeff := r1.slope.map (fun m => |m|) }
        linearY := "ln([A])" }
    second :=
      { R2 := r2.rsq
        k := r2.slope
        eqn := { lhs := "1/[A] =", intercept := r2.intercept, sign := .plus,
                 coeff := r2.slope.map (fun m => |m|) }
        linearY := "1 / [A]" }
    best := bestOrder r0.rsq r1.rsq r2.rsq }

/-- The calculation engine, lines 72-116 of the source, over a cleaned
sample list `df` of (time, concentration) pairs: zeroth-order
regression of `c` on `t` over all samples, first-order regression of
`log c` on `t` over `df_log`, second-order regression of `1/c` on `t`
over `df_inv`, then the `results` dictionary and `best_order`.  Either
uncaught `linregress` `ValueError` aborts the whole section.  `log` is
a parameter standing for `np.log` (see the file header). -/
def evaluate (log : ℚ → ℚ) (df : List (ℚ × ℚ)) : Except RegError EvalResult := do
  let reg0 ← linregress (df.map Prod.fst) (df.map Prod.snd)
  let dl := df_log df
  let reg1 ← linregress (dl.map Prod.fst) ((dl.map Prod.snd).map log)
  let di := df_inv df
  let reg2 ← linregress (di.map Prod.fst) ((di.map Prod.snd).map (fun c => 1 / c))
  return mkEval reg0 reg1 reg2

/-- Returns `true` exactly on a successful `Except` value. -/
def isOkE {ε α : Type} : Except ε α → Bool
  | .ok _ => true
  | .error _ => false

/-- The payload of a successful `Except` value. -/
def getOk {ε α : Type} : Except ε α → Option α
  | .ok a => some a
  | .error _ => none

/-- The error of a failed `Except` value. -/
def getErr {ε α : Type} : Except ε α → Option ε
  | .ok _ => none
  | .error e => some e

/-- Returns `true` exactly when `pd.to_numeric` failed on the column. -/
def isParseFailure {α : Type} : Except DataError α → Bool
  | .error (.unableToParse _ _) => true
  | _ => false

/-- The three R² values of a successful evaluation, in dictionary
order. -/
def rsqTriple (e : Except RegError EvalResult) : Option (ℚ × ℚ × ℚ) :=
  (getOk e).map (fun r => (r.zeroth.R2, r.first.R2, r.second.R2))

/-! ### Helper lemmas -/

theorem evaluate_ok_iff (log : ℚ → ℚ) (s : List (ℚ × ℚ)) (res : EvalResult) :
    evaluate log s = .ok res ↔
      ∃ r0 r1 r2 : LinResult,
        linregress (s.map Prod.fst) (s.map Prod.snd) = .ok r0 ∧
        linregress ((df_log s).map Prod.fst) (((df_log s).map Prod.snd).map log) = .ok r1 ∧
        linregress ((df_inv s).map Prod.fst) (((df_inv s).map Prod.snd).map (fun c => 1 / c)) = .ok r2 ∧
        res = mkEval r0 r1 r2 := by
  unfold evaluate
  rcases h0 : linregress (s.map Prod.fst) (s.map Prod.snd) with e0 | r0 <;>
    simp only [h0, bind, Except.bind]
  · simp
  rcases h1 : linregress ((df_log s).map Prod.fst) (((df_log s).map Prod.snd).map log)
    with e1 | r1 <;> simp only [h1, bind, Except.bind]
  · simp
  rcases h2 : linregress ((df_inv s).map Prod.fst) (((df_inv s).map Prod.snd).map (fun c => 1 / c))
    with e2 | r2 <;> simp only [h2, bind, Except.bind]
  · simp
  constructor
  · intro h
    exact ⟨r0, r1, r2, rfl, rfl, rfl, (Except.ok.injEq _ _ ▸ h).symm⟩
  · rintro ⟨r0', r1', r2', hr0, hr1, hr2, rfl⟩
    cases Except.ok.injEq .. ▸ hr0
    cases Except.ok.injEq .. ▸ hr1
    cases Except.ok.injEq .. ▸ hr2
    rfl

theorem evaluate_err0 (log : ℚ → ℚ) (s : List (ℚ × ℚ)) (e : RegError)
    (h : linregress (s.map Prod.fst) (s.map Prod.snd) = .error e) :
    evaluate log s = .error e := by
  unfold evaluate
  simp only [h, bind, Except.bind]

theorem bestOrder_spec (r0 r1 r2 : ℚ) :
    (bestOrder r0 r1 r2 = .zeroth ↔ r1 ≤ r0 ∧ r2 ≤ r0) ∧
    (bestOrder r0 r1 r2 = .first ↔ r0 < r1 ∧ r2 ≤ r1) ∧
    (bestOrder r0 r1 r2 = .second ↔ r0 < r2 ∧ r1 < r2) := by
  simp only [bestOrder, gt_iff_lt]
  split_ifs with h1 h2 h3 <;>
    refine ⟨?_, ?_, ?_⟩ <;> constructor <;> intro h <;>
      first
        | rfl
        | exact absurd h (by decide)
        | exact ⟨by linarith, by linarith⟩
        | (exfalso; rcases h with ⟨a, b⟩; linarith)

theorem linregress_empty (y : List ℚ) : linregress [] y = .error .emptyInput := by
  unfold linregress
  simp

theorem linregress_single (a b : ℚ) :
    linregress [a] [b] = .ok ⟨none, none, 0⟩ := by
  unfold linregress
  norm_num [ssvar, sscov, mean, amax, amin]

theorem linregress_identicalX (x y : List ℚ) (hmax : amax x = amin x)
    (hlen : 1 < x.length) (hy : y ≠ []) :
    linregress x y = .error .identicalX := by
  unfold linregress
  rw [if_neg, if_pos ⟨hmax, hlen⟩]
  push_neg
  exact ⟨by omega, fun h => hy (List.length_eq_zero.mp h)⟩

theorem linregress_rsq_of_ssvar_y_eq_zero (x y : List ℚ) (r : LinResult)
    (h : linregress x y = .ok r) (hy : ssvar y = 0) : r.rsq = 0 := by
  unfold linregress at h
  split_ifs at h
  rw [Except.ok.injEq] at h
  subst h
  simp [hy]

/-! ### C1 — domain guards of the First- and Second-order regressions

The claim says both the First- and the Second-order regressions keep
only samples with `c > 0`.  The code filters `df_log = df[df["Conc"] > 0]`
for First but `df_inv = df[df["Conc"] != 0]` for Second, so a sample
with negative concentration is kept in the Second-order regression. -/

/-- C1 counterexample: in the sample set `[(0, -1), (1, 2)]` the sample
with concentration `-1 ≤ 0` is a member of `df_inv`, the second-order
regression's sample subset, and the second-order regression computed by
the engine has slope `3/2` — the value obtained over both samples (over
the one positive sample alone the slope would be the NaN sentinel).  So
the Second-order regression is not computed only over samples with
concentration strictly greater than 0. -/
theorem c1_counterexample :
    ((0:ℚ), (-1:ℚ)) ∈ df_inv [((0:ℚ), (-1:ℚ)), ((1:ℚ), (2:ℚ))] ∧
    ¬ (0 < (-1:ℚ)) ∧
    (getOk (evaluate (fun c => c) [((0:ℚ), (-1:ℚ)), ((1:ℚ), (2:ℚ))])).map
      (fun r => r.reg2.slope) = some (some (3 / 2)) := by
  refine ⟨by simp [df_inv], by norm_num, ?_⟩
  norm_num [getOk, evaluate, linregress, df_log, df_inv, mkEval, ssvar, sscov, mean,
    amax, amin, bind, Except.bind, pure, Except.pure, bestOrder]

/-- C1 amended: the First-order regression is computed only over samples
with concentration strictly greater than 0, while the Second-order
regression is computed over samples with concentration different from 0
(negative concentrations included); a sample excluded by a model's
guard is excluded from that model's regression only — appending a
sample with `c ≤ 0` leaves `df_log` unchanged, and a sample with
`c < 0` still enters `df_inv` (and the zeroth-order regression always
uses the full sample list). -/
theorem c1_guards_amended (s : List (ℚ × ℚ)) :
    (∀ p : ℚ × ℚ, p ∈ df_log s ↔ p ∈ s ∧ 0 < p.2) ∧
    (∀ p : ℚ × ℚ, p ∈ df_inv s ↔ p ∈ s ∧ p.2 ≠ 0) ∧
    (∀ p : ℚ × ℚ, p.2 ≤ 0 → df_log (s ++ [p]) = df_log s) ∧
    (∀ p : ℚ × ℚ, p.2 < 0 → df_inv (s ++ [p]) = df_inv s ++ [p]) := by
  refine ⟨fun p => ?_, fun p => ?_, fun p hp => ?_, fun p hp => ?_⟩
  · simp [df_log, List.mem_filter]
  · simp [df_inv, List.mem_filter]
  · simp [df_log, List.filter_append, not_lt.mpr hp]
  · simp [df_inv, List.filter_append, ne_of_lt hp]

/-- C1 witness: the amended theorem at the concrete sample set
`[(0, 1)]` and the appended sample `(2, -3)` with `c = -3 ≤ 0`. -/
theorem c1_witness :
    ((-3:ℚ) ≤ 0) ∧
    df_log ([((0:ℚ), (1:ℚ))] ++ [((2:ℚ), (-3:ℚ))]) = df_log [((0:ℚ), (1:ℚ))] ∧
    df_inv ([((0:ℚ), (1:ℚ))] ++ [((2:ℚ), (-3:ℚ))])
      = df_inv [((0:ℚ), (1:ℚ))] ++ [((2:ℚ), (-3:ℚ))] :=
  ⟨by norm_num, (c1_guards_amended _).2.2.1 _ (by norm_num),
    (c1_guards_amended _).2.2.2 _ (by norm_num)⟩

/-! ### C2 — behaviour on fewer than 2 samples

The claim says the evaluator fails with `InsufficientDataError` when
`len(samples) < 2`.  The code has no such check and no such error: with
one sample every regression silently yields the `R² = 0` / NaN sentinel
and the engine completes; with zero samples the first `linregress` call
raises scipy's `ValueError("Inputs must not be empty.")`, which is
uncaught. -/

/-- C2 counterexample: a one-sample set has fewer than 2 samples, yet
the engine does not fail at all — it computes all three regressions and
completes with the three R² values equal to 0. -/
theorem c2_counterexample :
    List.length [((0:ℚ), (1:ℚ))] < 2 ∧
    isOkE (evaluate (fun c => c) [((0:ℚ), (1:ℚ))]) = true ∧
    rsqTriple (evaluate (fun c => c) [((0:ℚ), (1:ℚ))]) = some (0, 0, 0) := by
  refine ⟨by norm_num, rfl, ?_⟩
  norm_num [rsqTriple, getOk, evaluate, linregress, df_log, df_inv, mkEval, ssvar, sscov, mean,
    amax, amin, bind, Except.bind, pure, Except.pure, bestOrder]

/-- C2 amended: the engine performs no sample-count check and raises no
`InsufficientDataError` (no such error exists in the code).  With zero
samples the first `linregress` call raises scipy's empty-input
`ValueError`, aborting the calculation; with exactly one sample of
positive concentration, evaluation completes normally, all three models
receiving the degenerate `R² = 0` regression. -/
theorem c2_amended (log : ℚ → ℚ) :
    evaluate log [] = .error .emptyInput ∧
    ∀ t c : ℚ, 0 < c → rsqTriple (evaluate log [(t, c)]) = some (0, 0, 0) := by
  constructor
  · exact evaluate_err0 log [] _ (linregress_empty _)
  · intro t c hc
    have hlog : df_log [(t, c)] = [(t, c)] := by simp [df_log, hc]
    have hinv : df_inv [(t, c)] = [(t, c)] := by simp [df_inv, ne_of_gt hc]
    have hok := (evaluate_ok_iff log [(t, c)]
        (mkEval ⟨none, none, 0⟩ ⟨none, none, 0⟩ ⟨none, none, 0⟩)).2
      ⟨⟨none, none, 0⟩, ⟨none, none, 0⟩, ⟨none, none, 0⟩,
        by simpa using linregress_single t c,
        by rw [hlog]; simpa using linregress_single t (log c),
        by rw [hinv]; simpa using linregress_single t (1 / c), rfl⟩
    rw [hok]
    simp [rsqTriple, getOk, mkEval]

/-- C2 witness: the amended theorem at the one-sample set `[(0, 1)]`
(with `0 < 1`) and at the empty sample set. -/
theorem c2_witness :
    (0:ℚ) < 1 ∧
    rsqTriple (evaluate (fun c => c) [((0:ℚ), (1:ℚ))]) = some (0, 0, 0) ∧
    evaluate (fun c => c) [] = .error .emptyInput :=
  ⟨by norm_num, (c2_amended (fun c => c)).2 0 1 (by norm_num),
    (c2_amended (fun c => c)).1⟩

/-! ### C3 — behaviour when a model's filtered subset is degenerate

The claim says a guard-filtered subset with fewer than 2 samples gives
that model the sentinel `R² = 0` without any error.  That is what
happens for a subset of exactly one sample, but an *empty* subset makes
`linregress` raise its empty-input `ValueError`, which is uncaught and
aborts the whole calculation — no results are produced for the other
models either. -/

/-- C3 counterexample: the sample set `[(0, -1), (1, -2)]` has 2
samples, its first-order subset `df_log` is empty (both concentrations
are negative), and the engine raises scipy's empty-input `ValueError`
instead of producing the other models' results. -/
theorem c3_counterexample :
    2 ≤ List.length [((0:ℚ), (-1:ℚ)), ((1:ℚ), (-2:ℚ))] ∧
    (df_log [((0:ℚ), (-1:ℚ)), ((1:ℚ), (-2:ℚ))]).length < 2 ∧
    evaluate (fun c => c) [((0:ℚ), (-1:ℚ)), ((1:ℚ), (-2:ℚ))] = .error .emptyInput := by
  refine ⟨by norm_num, ?_, rfl⟩
  norm_num [df_log]

/-- C3 amended: a guard-filtered subset of exactly one sample gives that
model the degenerate regression — `R² = 0` with NaN rate constant — and
no error, the other models' results still being produced; but an empty
filtered subset (or an empty sample set) makes `linregress` raise its
empty-input `ValueError`, so the evaluation produces no result at
all. -/
theorem c3_amended (log : ℚ → ℚ) (s : List (ℚ × ℚ)) :
    (∀ res : EvalResult, evaluate log s = .ok res →
      (s.length = 1 → res.zeroth.R2 = 0 ∧ res.zeroth.k = none) ∧
      ((df_log s).length = 1 → res.first.R2 = 0 ∧ res.first.k = none) ∧
      ((df_inv s).length = 1 → res.second.R2 = 0 ∧ res.second.k = none)) ∧
    (s.length = 0 → evaluate log s = .error .emptyInput) ∧
    ((df_log s).length = 0 → isOkE (evaluate log s) = false) ∧
    ((df_inv s).length = 0 → isOkE (evaluate log s) = false) := by
  refine ⟨fun res hres => ?_, fun h0 => ?_, fun h1 => ?_, fun h2 => ?_⟩
  · obtain ⟨r0, r1, r2, hr0, hr1, hr2, rfl⟩ := (evaluate_ok_iff log s res).1 hres
    refine ⟨fun hl => ?_, fun hl => ?_, fun hl => ?_⟩
    · obtain ⟨p, rfl⟩ := List.length_eq_one.1 hl
      simp only [List.map_cons, List.map_nil, linregress_single] at hr0
      cases Except.ok.injEq .. ▸ hr0
      exact ⟨rfl, rfl⟩
    · obtain ⟨p, hp⟩ := List.length_eq_one.1 hl
      rw [hp] at hr1
      simp only [List.map_cons, List.map_nil, linregress_single] at hr1
      cases Except.ok.injEq .. ▸ hr1
      exact ⟨rfl, rfl⟩
    · obtain ⟨p, hp⟩ := List.length_eq_one.1 hl
      rw [hp] at hr2
      simp only [List.map_cons, List.map_nil, linregress_single] at hr2
      cases Except.ok.injEq .. ▸ hr2
      exact ⟨rfl, rfl⟩
  · obtain rfl := List.length_eq_zero.1 h0
    exact evaluate_err0 log [] _ (linregress_empty _)
  · cases hev : evaluate log s with
    | error e => rfl
    | ok res =>
      obtain ⟨r0, r1, r2, hr0, hr1, hr2, rfl⟩ := (evaluate_ok_iff log s _).1 hev
      rw [List.length_eq_zero.1 h1] at hr1
      simp [linregress] at hr1
  · cases hev : evaluate log s with
    | error e => rfl
    | ok res =>
      obtain ⟨r0, r1, r2, hr0, hr1, hr2, rfl⟩ := (evaluate_ok_iff log s _).1 hev
      rw [List.length_eq_zero.1 h2] at hr2
      simp [linregress] at hr2

/-- The engine's full output on the sample set `[(0, 2), (1, -1)]`,
whose first-order subset `df_log` has exactly one sample. -/
def resC : EvalResult :=
  { reg0 := { slope := some (-3), intercept := some 2, rsq := 1 }
    reg1 := { slope := none, intercept := none, rsq := 0 }
    reg2 := { slope := some (-3/2), intercept := some (1/2), rsq := 1 }
    zeroth := { R2 := 1, k := some 3,
                eqn := { lhs := "[A] =", intercept := some 2, sign := .minus, coeff := some 3 },
                linearY := "Concentration [A]" }
    first := { R2 := 0, k := none,
               eqn := { lhs := "ln[A] =", intercept := none, sign := .minus, coeff := none },
               linearY := "ln([A])" }
    second := { R2 := 1, k := some (-3/2),
                eqn := { lhs := "1/[A] =", intercept := some (1/2), sign := .plus,
                         coeff := some (3/2) },
                linearY := "1 / [A]" }
    best := .zeroth }

theorem evalC : evaluate (fun c => c) [((0:ℚ), (2:ℚ)), ((1:ℚ), (-1:ℚ))] = .ok resC := by
  norm_num [evaluate, linregress, df_log, df_inv, mkEval, ssvar, sscov, mean,
    amax, amin, bind, Except.bind, pure, Except.pure, bestOrder, abs, resC]

/-- C3 witness: the amended theorem on `[(0, 2), (1, -1)]`, whose
`df_log` has exactly one sample: the evaluation succeeds, the
first-order model gets `R² = 0` and NaN rate constant, and the other
two models' results are present in the output. -/
theorem c3_witness :
    (df_log [((0:ℚ), (2:ℚ)), ((1:ℚ), (-1:ℚ))]).length = 1 ∧
    evaluate (fun c => c) [((0:ℚ), (2:ℚ)), ((1:ℚ), (-1:ℚ))] = .ok resC ∧
    resC.first.R2 = 0 ∧ resC.first.k = none := by
  have hlen : (df_log [((0:ℚ), (2:ℚ)), ((1:ℚ), (-1:ℚ))]).length = 1 := by norm_num [df_log]
  exact ⟨hlen, evalC,
    ((c3_amended (fun c => c) [((0:ℚ), (2:ℚ)), ((1:ℚ), (-1:ℚ))]).1 resC evalC).2.1 hlen⟩

/-! ### C4 — best-fit selection -/

/-- C4: `best_order` is the model with the maximum `R²` among the three
results, ties broken by the fixed dictionary order Zeroth, First,
Second: Python's `max` keeps the first key and replaces it only on a
strictly greater value, so Zeroth wins unless First or Second is
strictly better, First beats Second on a tie between them, and Second
wins only when strictly above both. -/
theorem c4_best_fit (log : ℚ → ℚ) (s : List (ℚ × ℚ)) (res : EvalResult)
    (h : evaluate log s = .ok res) :
    (res.best = .zeroth ↔ res.first.R2 ≤ res.zeroth.R2 ∧ res.second.R2 ≤ res.zeroth.R2) ∧
    (res.best = .first ↔ res.zeroth.R2 < res.first.R2 ∧ res.second.R2 ≤ res.first.R2) ∧
    (res.best = .second ↔ res.zeroth.R2 < res.second.R2 ∧ res.first.R2 < res.second.R2) := by
  obtain ⟨r0, r1, r2, -, -, -, rfl⟩ := (evaluate_ok_iff log s res).1 h
  exact bestOrder_spec r0.rsq r1.rsq r2.rsq

/-- The engine's full output on the sample set `[(0, 4), (2, 2)]`: all
three models fit perfectly (`R² = 1`), a three-way tie. -/
def resA : EvalResult :=
  { reg0 := { slope := some (-1), intercept := some 4, rsq := 1 }
    reg1 := { slope := some (-1), intercept := some 4, rsq := 1 }
    reg2 := { slope := some (1/8), intercept := some (1/4), rsq := 1 }
    zeroth := { R2 := 1, k := some 1,
                eqn := { lhs := "[A] =", intercept := some 4, sign := .minus, coeff := some 1 },
                linearY := "Concentration [A]" }
    first := { R2 := 1, k := some 1,
               eqn := { lhs := "ln[A] =", intercept := some 4, sign := .minus, coeff := some 1 },
               linearY := "ln([A])" }
    second := { R2 := 1, k := some (1/8),
                eqn := { lhs := "1/[A] =", intercept := some (1/4), sign := .plus,
                         coeff := some (1/8) },
                linearY := "1 / [A]" }
    best := .zeroth }

theorem evalA : evaluate (fun c => c) [((0:ℚ), (4:ℚ)), ((2:ℚ), (2:ℚ))] = .ok resA := by
  norm_num [evaluate, linregress, df_log, df_inv, mkEval, ssvar, sscov, mean,
    amax, amin, bind, Except.bind, pure, Except.pure, bestOrder, abs, resA]

/-- C4 witness: on `[(0, 4), (2, 2)]` all three R² values are 1 (a
three-way tie) and the selected best order is Zeroth, the first model
in the fixed precedence. -/
theorem c4_witness :
    evaluate (fun c => c) [((0:ℚ), (4:ℚ)), ((2:ℚ), (2:ℚ))] = .ok resA ∧
    resA.zeroth.R2 = 1 ∧ resA.first.R2 = 1 ∧ resA.second.R2 = 1 ∧
    resA.best = .zeroth := by
  refine ⟨evalA, rfl, rfl, rfl, ?_⟩
  exact (c4_best_fit (fun c => c) [((0:ℚ), (4:ℚ)), ((2:ℚ), (2:ℚ))] resA evalA).1.2
    ⟨le_refl _, le_refl _⟩

/-! ### C5 — rate-constant sign convention -/

/-- C5: on every successfully evaluated sample set the reported rate
constant is the negated regression slope for the Zeroth- and
First-order models and the regression slope unchanged for the
Second-order model, where each model's regression is the `linregress`
fit of its own transformed subset. -/
theorem c5_rate_constant_sign (log : ℚ → ℚ) (s : List (ℚ × ℚ)) (res : EvalResult)
    (h : evaluate log s = .ok res) (r0 r1 r2 : LinResult)
    (h0 : linregress (s.map Prod.fst) (s.map Prod.snd) = .ok r0)
    (h1 : linregress ((df_log s).map Prod.fst) (((df_log s).map Prod.snd).map log) = .ok r1)
    (h2 : linregress ((df_inv s).map Prod.fst) (((df_inv s).map Prod.snd).map (fun c => 1 / c))
      = .ok r2) :
    res.zeroth.k = r0.slope.map (fun m => -m) ∧
    res.first.k = r1.slope.map (fun m => -m) ∧
    res.second.k = r2.slope := by
  obtain ⟨r0', r1', r2', hr0, hr1, hr2, rfl⟩ := (evaluate_ok_iff log s res).1 h
  rw [h0] at hr0
  rw [h1] at hr1
  rw [h2] at hr2
  cases Except.ok.injEq .. ▸ hr0
  cases Except.ok.injEq .. ▸ hr1
  cases Except.ok.injEq .. ▸ hr2
  exact ⟨rfl, rfl, rfl⟩

/-- C5 witness: on `[(0, 4), (2, 2)]` the zeroth- and first-order
slopes are `-1` and the reported rate constants are `1 = -(-1)`, while
the second-order slope is `1/8` and is reported unchanged. -/
theorem c5_witness :
    resA.zeroth.k = some 1 ∧ resA.first.k = some 1 ∧ resA.second.k = some (1/8 : ℚ) := by
  have h := c5_rate_constant_sign (fun c => c) [((0:ℚ), (4:ℚ)), ((2:ℚ), (2:ℚ))] resA evalA
    ⟨some (-1), some 4, 1⟩ ⟨some (-1), some 4, 1⟩ ⟨some (1/8), some (1/4), 1⟩
    (by norm_num [linregress, ssvar, sscov, mean, amax, amin])
    (by norm_num [linregress, df_log, ssvar, sscov, mean, amax, amin])
    (by norm_num [linregress, df_inv, ssvar, sscov, mean, amax, amin])
  simpa using h

/-! ### C6 — zero-variance degeneracy

The claim says zero variance of the time values or of the transformed
concentration values yields `R² = 0` without any exception.  scipy's
`linregress` indeed sets `r = 0` when `ssym = 0` (or `ssxm = 0`), but
when all x values are identical with more than one point it *raises*
`ValueError("Cannot calculate a linear regression if all x values are
identical")`, which the script does not catch. -/

/-- C6 counterexample: the sample set `[(0, 1), (0, 2)]` has 2 samples
(so every filtered subset does too) and zero variance of the time
values, and the engine raises scipy's identical-x `ValueError` instead
of producing `R² = 0`. -/
theorem c6_counterexample :
    2 ≤ List.length [((0:ℚ), (1:ℚ)), ((0:ℚ), (2:ℚ))] ∧
    ssvar (List.map Prod.fst [((0:ℚ), (1:ℚ)), ((0:ℚ), (2:ℚ))]) = 0 ∧
    evaluate (fun c => c) [((0:ℚ), (1:ℚ)), ((0:ℚ), (2:ℚ))] = .error .identicalX := by
  refine ⟨by norm_num, ?_, rfl⟩
  norm_num [ssvar, mean]

/-- C6 amended: when the variance of a model's transformed
concentration values is 0 the model's `R²` is 0 and no error occurs;
but when the variance of the time values is 0 (all time values
identical, at least 2 samples) `linregress` raises its identical-x
`ValueError` and the whole evaluation aborts. -/
theorem c6_amended (log : ℚ → ℚ) (s : List (ℚ × ℚ)) :
    (∀ res : EvalResult, evaluate log s = .ok res →
      (ssvar (s.map Prod.snd) = 0 → res.zeroth.R2 = 0) ∧
      (ssvar (((df_log s).map Prod.snd).map log) = 0 → res.first.R2 = 0) ∧
      (ssvar (((df_inv s).map Prod.snd).map (fun c => 1 / c)) = 0 → res.second.R2 = 0)) ∧
    (amax (s.map Prod.fst) = amin (s.map Prod.fst) → 1 < s.length →
      evaluate log s = .error .identicalX) := by
  constructor
  · intro res hres
    obtain ⟨r0, r1, r2, hr0, hr1, hr2, rfl⟩ := (evaluate_ok_iff log s res).1 hres
    exact ⟨fun hy => linregress_rsq_of_ssvar_y_eq_zero _ _ _ hr0 hy,
      fun hy => linregress_rsq_of_ssvar_y_eq_zero _ _ _ hr1 hy,
      fun hy => linregress_rsq_of_ssvar_y_eq_zero _ _ _ hr2 hy⟩
  · intro hmax hlen
    have hs : s ≠ [] := by
      intro h
      rw [h] at hlen
      simp at hlen
    refine evaluate_err0 log s _ (linregress_identicalX _ _ hmax ?_ ?_)
    · simpa using hlen
    · simpa [List.map_eq_nil_iff] using hs

/-- The engine's full output on the sample set `[(0, 5), (1, 5)]`,
whose concentration column is constant: every transformed dependent
column has zero variance, so every `R²` is 0 (and no error occurs). -/
def resD : EvalResult :=
  { reg0 := { slope := some 0, intercept := some 5, rsq := 0 }
    reg1 := { slope := some 0, intercept := some 5, rsq := 0 }
    reg2 := { slope := some 0, intercept := some (1/5), rsq := 0 }
    zeroth := { R2 := 0, k := some 0,
                eqn := { lhs := "[A] =", intercept := some 5, sign := .minus, coeff := some 0 },
                linearY := "Concentration [A]" }
    first := { R2 := 0, k := some 0,
               eqn := { lhs := "ln[A] =", intercept := some 5, sign := .minus, coeff := some 0 },
               linearY := "ln([A])" }
    second := { R2 := 0, k := some 0,
                eqn := { lhs := "1/[A] =", intercept := some (1/5), sign := .plus,
                         coeff := some 0 },
                linearY := "1 / [A]" }
    best := .zeroth }

theorem evalD : evaluate (fun c => c) [((0:ℚ), (5:ℚ)), ((1:ℚ), (5:ℚ))] = .ok resD := by
  norm_num [evaluate, linregress, df_log, df_inv, mkEval, ssvar, sscov, mean,
    amax, amin, bind, Except.bind, pure, Except.pure, bestOrder, abs, resD]

/-- C6 witness: the amended theorem on `[(0, 5), (1, 5)]` — constant
concentration, hence zero variance of the dependent column and
`R² = 0` without error — and on `[(1, 3), (1, 4)]` — identical time
values, hence the identical-x `ValueError`. -/
theorem c6_witness :
    ssvar (List.map Prod.snd [((0:ℚ), (5:ℚ)), ((1:ℚ), (5:ℚ))]) = 0 ∧
    evaluate (fun c => c) [((0:ℚ), (5:ℚ)), ((1:ℚ), (5:ℚ))] = .ok resD ∧
    resD.zeroth.R2 = 0 ∧
    amax (List.map Prod.fst [((1:ℚ), (3:ℚ)), ((1:ℚ), (4:ℚ))])
      = amin (List.map Prod.fst [((1:ℚ), (3:ℚ)), ((1:ℚ), (4:ℚ))]) ∧
    evaluate (fun c => c) [((1:ℚ), (3:ℚ)), ((1:ℚ), (4:ℚ))] = .error .identicalX := by
  refine ⟨by norm_num [ssvar, mean], evalD, ?_, by norm_num [amax, amin], ?_⟩
  · exact ((c6_amended (fun c => c) [((0:ℚ), (5:ℚ)), ((1:ℚ), (5:ℚ))]).1 resD evalD).1
      (by norm_num [ssvar, mean])
  · exact (c6_amended (fun c => c) [((1:ℚ), (3:ℚ)), ((1:ℚ), (4:ℚ))]).2
      (by norm_num [amax, amin]) (by norm_num)

/-! ### C10 — hard-coded sign in the formatted equations -/

/-- C10: each model's formatted integrated-rate equation embeds
`abs(slope)` after a hard-coded sign — `-` for Zeroth and First order,
`+` for Second order — regardless of the fitted slope's actual sign;
consequently, when the fitted slope has the opposite sign (positive for
Zeroth/First, negative for Second) the line displayed by the equation
has slope `-|slope|` (resp. `+|slope|`) and differs from the fitted
line `slope * t + intercept`. -/
theorem c10_eqn_hardcoded_sign (log : ℚ → ℚ) (s : List (ℚ × ℚ)) (res : EvalResult)
    (h : evaluate log s = .ok res) :
    (res.zeroth.eqn.sign = .minus ∧ res.zeroth.eqn.coeff = res.reg0.slope.map (fun m => |m|) ∧
      ∀ v : ℚ, res.reg0.slope = some v → 0 < v → displayedSlope res.zeroth.eqn ≠ some v) ∧
    (res.first.eqn.sign = .minus ∧ res.first.eqn.coeff = res.reg1.slope.map (fun m => |m|) ∧
      ∀ v : ℚ, res.reg1.slope = some v → 0 < v → displayedSlope res.first.eqn ≠ some v) ∧
    (res.second.eqn.sign = .plus ∧ res.second.eqn.coeff = res.reg2.slope.map (fun m => |m|) ∧
      ∀ v : ℚ, res.reg2.slope = some v → v < 0 → displayedSlope res.second.eqn ≠ some v) := by
  obtain ⟨r0, r1, r2, -, -, -, rfl⟩ := (evaluate_ok_iff log s res).1 h
  refine ⟨⟨rfl, rfl, fun v hv hpos => ?_⟩, ⟨rfl, rfl, fun v hv hpos => ?_⟩,
    ⟨rfl, rfl, fun v hv hneg => ?_⟩⟩
  · simp only [mkEval] at hv
    simp only [displayedSlope, mkEval, hv, Option.map_some', ne_eq, Option.some.injEq,
      abs_of_pos hpos]
    intro heq
    linarith
  · simp only [mkEval] at hv
    simp only [displayedSlope, mkEval, hv, Option.map_some', ne_eq, Option.some.injEq,
      abs_of_pos hpos]
    intro heq
    linarith
  · simp only [mkEval] at hv
    simp only [displayedSlope, mkEval, hv, Option.map_some', ne_eq, Option.some.injEq,
      abs_of_neg hneg]
    intro heq
    linarith

/-- The engine's full output on the sample set `[(0, 1), (1, 2)]`:
increasing concentration, so the zeroth- and first-order slopes are
positive (+1) while the second-order slope is negative (-1/2) — every
displayed equation then misdescribes its fitted line. -/
def resB : EvalResult :=
  { reg0 := { slope := some 1, intercept := some 1, rsq := 1 }
    reg1 := { slope := some 1, intercept := some 1, rsq := 1 }
    reg2 := { slope := some (-1/2), intercept := some 1, rsq := 1 }
    zeroth := { R2 := 1, k := some (-1),
                eqn := { lhs := "[A] =", intercept := some 1, sign := .minus, coeff := some 1 },
                linearY := "Concentration [A]" }
    first := { R2 := 1, k := some (-1),
               eqn := { lhs := "ln[A] =", intercept := some 1, sign := .minus, coeff := some 1 },
               linearY := "ln([A])" }
    second := { R2 := 1, k := some (-1/2),
                eqn := { lhs := "1/[A] =", intercept := some 1, sign := .plus,
                         coeff := some (1/2) },
                linearY := "1 / [A]" }
    best := .zeroth }

theorem evalB : evaluate (fun c => c) [((0:ℚ), (1:ℚ)), ((1:ℚ), (2:ℚ))] = .ok resB := by
  norm_num [evaluate, linregress, df_log, df_inv, mkEval, ssvar, sscov, mean,
    amax, amin, bind, Except.bind, pure, Except.pure, bestOrder, abs, resB]

/-- C10 witness: on `[(0, 1), (1, 2)]` the fitted zeroth-order slope is
`+1` but the displayed zeroth-order equation has slope `-1`, and the
fitted second-order slope is `-1/2` but the displayed second-order
equation has slope `+1/2`. -/
theorem c10_witness :
    evaluate (fun c => c) [((0:ℚ), (1:ℚ)), ((1:ℚ), (2:ℚ))] = .ok resB ∧
    resB.reg0.slope = some 1 ∧ (0:ℚ) < 1 ∧
    displayedSlope resB.zeroth.eqn ≠ some 1 ∧
    resB.reg2.slope = some (-1/2) ∧ (-1/2 : ℚ) < 0 ∧
    displayedSlope resB.second.eqn ≠ some (-1/2) := by
  refine ⟨evalB, rfl, by norm_num, ?_, rfl, by norm_num, ?_⟩
  · exact (c10_eqn_hardcoded_sign (fun c => c) [((0:ℚ), (1:ℚ)), ((1:ℚ), (2:ℚ))] resB
      evalB).1.2.2 1 rfl (by norm_num)
  · exact (c10_eqn_hardcoded_sign (fun c => c) [((0:ℚ), (1:ℚ)), ((1:ℚ), (2:ℚ))] resB
      evalB).2.2.2.2 (-1/2) rfl (by norm_num)

/-! ### Normalizer lemmas for C8 and C9 -/

theorem toNumericColAux_ok (i : ℕ) (l : List Cell) (h : ∀ f ∈ l, f ≠ Cell.bad) :
    toNumericColAux i l = .ok (l.map Cell.val) := by
  induction l generalizing i with
  | nil => rfl
  | cons a t ih =>
    cases a with
    | num v =>
      simp [toNumericColAux, ih (i + 1) (fun f hf => h f (List.mem_cons_of_mem _ hf)),
        Cell.val, Except.map]
    | bad => exact absurd rfl (h _ (List.mem_cons_self _ _))

theorem toNumericColAux_ok_no_bad (i : ℕ) (l : List Cell) (v : List PFloat)
    (h : toNumericColAux i l = .ok v) : Cell.bad ∉ l := by
  induction l generalizing i v with
  | nil => simp
  | cons a t ih =>
    cases a with
    | num w =>
      intro hmem
      rcases List.mem_cons.1 hmem with hh | ht
      · exact Cell.noConfusion hh
      · rcases ht2 : toNumericColAux (i + 1) t with j | vt
        · rw [toNumericColAux, ht2] at h
          exact Except.noConfusion h
        · exact ih (i + 1) vt ht2 ht
    | bad => exact Except.noConfusion h

theorem zip_map_same {α β γ : Type} (f : α → β) (g : α → γ) (l : List α) :
    (l.map f).zip (l.map g) = l.map (fun x => (f x, g x)) := by
  induction l with
  | nil => rfl
  | cons a t ih => simp [ih]

theorem filter_map_swap {α β : Type} (f : α → β) (p : β → Bool) (l : List α) :
    (l.map f).filter p = (l.filter (fun a => p (f a))).map f := by
  induction l with
  | nil => rfl
  | cons a t ih => by_cases hp : p (f a) <;> simp [List.filter_cons, hp, ih]

/-- The (time, concentration) float pair of a well-formed numeric
row. -/
def rowVals (r : List Cell) : PFloat × PFloat :=
  ((rowToPair r).1.val, (rowToPair r).2.val)

/-- Returns `true` on a row none of whose cells is the parsed NaN value — the
rows that `df.dropna()` keeps. -/
def noNanRow (r : List Cell) : Bool :=
  !(r.any (fun f => decide (f = Cell.num PFloat.nan)))

theorem decide_cell_nan (v : PFloat) :
    decide (Cell.num v = Cell.num PFloat.nan) = v.isNan := by
  cases v <;> rfl

/-- On a batch of well-formed, fully numeric rows the normalizer
succeeds and returns exactly the non-NaN rows' float pairs, sorted by
time. -/
theorem normalize_ok_of_numeric (rows : List (List Cell))
    (h1 : ∀ r ∈ rows, r.length = 2)
    (h2 : ∀ r ∈ rows, ∀ f ∈ r, f ≠ Cell.bad) :
    normalize rows = .ok (sortByTime ((rows.filter noNanRow).map rowVals)) := by
  have hguard : rows.all (fun r => r.length == 2) = true := by
    rw [List.all_eq_true]
    intro r hr
    simpa using h1 r hr
  have hfst : ∀ f ∈ rows.map (Prod.fst ∘ rowToPair), f ≠ Cell.bad := by
    intro f hf
    simp only [List.mem_map, Function.comp] at hf
    obtain ⟨r, hr, rfl⟩ := hf
    obtain ⟨a, b, rfl⟩ := List.length_eq_two.1 (h1 r hr)
    exact h2 _ hr _ (List.mem_cons_self _ _)
  have hsnd : ∀ f ∈ rows.map (Prod.snd ∘ rowToPair), f ≠ Cell.bad := by
    intro f hf
    simp only [List.mem_map, Function.comp] at hf
    obtain ⟨r, hr, rfl⟩ := hf
    obtain ⟨a, b, rfl⟩ := List.length_eq_two.1 (h1 r hr)
    exact h2 _ hr _ (List.mem_cons_of_mem _ (List.mem_cons_self _ _))
  have hA := toNumericColAux_ok 0 (rows.map (Prod.fst ∘ rowToPair)) hfst
  have hB := toNumericColAux_ok 0 (rows.map (Prod.snd ∘ rowToPair)) hsnd
  rw [List.map_map] at hA hB
  have key : (rows.map (Cell.val ∘ Prod.fst ∘ rowToPair)).zip
      (rows.map (Cell.val ∘ Prod.snd ∘ rowToPair)) = rows.map rowVals := by
    rw [zip_map_same]
    rfl
  rw [normalize, if_pos hguard]
  simp only [List.map_map]
  simp only [toNumericCol, hA, hB]
  rw [key, dropna]
  simp only [filter_map_swap]
  have hfc : rows.filter (fun r => !((rowVals r).1.isNan || (rowVals r).2.isNan))
      = rows.filter noNanRow := by
    apply List.filter_congr
    intro r hr
    obtain ⟨a, b, rfl⟩ := List.length_eq_two.1 (h1 r hr)
    have ha := h2 _ hr a (List.mem_cons_self _ _)
    have hb := h2 _ hr b (List.mem_cons_of_mem _ (List.mem_cons_self _ _))
    cases a with
    | bad => exact absurd rfl ha
    | num va =>
      cases b with
      | bad => exact absurd rfl hb
      | num vb =>
        simp only [rowVals, rowToPair, Cell.val, noNanRow, List.any_cons, List.any_nil,
          decide_cell_nan, Bool.or_false]
  rw [hfc]

/-! ### C8 — rejection of unparseable rows

The claim says any row that fails to parse as two *finite* real
numbers triggers a `ParseError` rejecting the whole batch.  In the code
only rows that fail `pd.to_numeric` altogether (a non-numeric token) do
that: the tokens `"nan"` and `"inf"` parse fine, to NaN and +infinity —
a NaN row is silently dropped by `dropna()` and an infinite value is
accepted into the sample set outright. -/

/-- C8 counterexample: a batch whose second row is `(1, inf)` — which
does not parse as two *finite* real numbers — is not rejected at all:
the normalizer succeeds and even keeps the infinite sample. -/
theorem c8_counterexample :
    normalize [[Cell.num (PFloat.fin 0), Cell.num (PFloat.fin 1)],
               [Cell.num (PFloat.fin 1), Cell.num PFloat.inf]]
      = .ok [(PFloat.fin 0, PFloat.fin 1), (PFloat.fin 1, PFloat.inf)] ∧
    PFloat.inf.isFinite = false :=
  ⟨rfl, rfl⟩

/-- C8 amended: a row with a *non-numeric* token makes `pd.to_numeric`
raise, rejecting the whole batch with an error naming the column and
the position of the first failing token (no partial acceptance); but a
row whose tokens parse to non-finite floats does not: a NaN row is
silently dropped and infinite values are accepted. -/
theorem c8_amended (rows : List (List Cell))
    (h1 : ∀ r ∈ rows, r.length = 2)
    (h2 : ∃ r ∈ rows, Cell.bad ∈ r) :
    isParseFailure (normalize rows) = true := by
  have hguard : rows.all (fun r => r.length == 2) = true := by
    rw [List.all_eq_true]
    intro r hr
    simpa using h1 r hr
  rw [normalize, if_pos hguard]
  rcases hA : toNumericCol (rows.map (Prod.fst ∘ rowToPair)) with i | ts
  · simp [hA, isParseFailure]
  rcases hB : toNumericCol (rows.map (Prod.snd ∘ rowToPair)) with j | cs
  · simp [hA, hB, isParseFailure]
  exfalso
  obtain ⟨r, hr, hbad⟩ := h2
  obtain ⟨a, b, rfl⟩ := List.length_eq_two.1 (h1 r hr)
  have hab : Cell.bad = a ∨ Cell.bad = b := by simpa using hbad
  rcases hab with rfl | rfl
  · refine toNumericColAux_ok_no_bad 0 _ ts hA ?_
    simp only [List.mem_map, Function.comp]
    exact ⟨[Cell.bad, b], hr, rfl⟩
  · refine toNumericColAux_ok_no_bad 0 _ cs hB ?_
    simp only [List.mem_map, Function.comp]
    exact ⟨[a, Cell.bad], hr, rfl⟩

/-- C8 witness: the amended theorem on the one-row batch
`[[0, <non-numeric>]]`: the row's cells all have the right count, the
concentration cell is non-numeric, and the normalizer reports a parse
failure. -/
theorem c8_witness :
    ([[Cell.num (PFloat.fin 0), Cell.bad]] : List (List Cell)).all
      (fun r => r.length == 2) = true ∧
    isParseFailure (normalize [[Cell.num (PFloat.fin 0), Cell.bad]]) = true := by
  refine ⟨rfl, c8_amended _ ?_ ?_⟩
  · intro r hr
    rw [List.mem_singleton.1 hr]
    rfl
  · exact ⟨[Cell.num (PFloat.fin 0), Cell.bad], List.mem_singleton.2 rfl,
      List.mem_cons_of_mem _ (List.mem_cons_self _ _)⟩

/-! ### C9 — NaN rows are silently dropped -/

/-- C9: on a batch of well-formed rows all of whose cells are numeric,
a row with a NaN value (for example the literal token `nan` as a
concentration) causes no `ParseError` and does not reject the batch:
the normalizer succeeds, and its output is identical to what it
produces on the batch with the NaN rows removed — the NaN row is
dropped by `df.dropna()` before sorting and the remaining rows are
processed without it. -/
theorem c9_nan_rows_dropped (rows : List (List Cell))
    (h1 : ∀ r ∈ rows, r.length = 2)
    (h2 : ∀ r ∈ rows, ∀ f ∈ r, f ≠ Cell.bad) :
    isOkE (normalize rows) = true ∧
    normalize rows = normalize (rows.filter noNanRow) := by
  have hA := normalize_ok_of_numeric rows h1 h2
  have h1' : ∀ r ∈ rows.filter noNanRow, r.length = 2 :=
    fun r hr => h1 r (List.mem_of_mem_filter hr)
  have h2' : ∀ r ∈ rows.filter noNanRow, ∀ f ∈ r, f ≠ Cell.bad :=
    fun r hr => h2 r (List.mem_of_mem_filter hr)
  have hB := normalize_ok_of_numeric _ h1' h2'
  have hidem : (rows.filter noNanRow).filter noNanRow = rows.filter noNanRow :=
    List.filter_eq_self.2 (fun a ha => List.of_mem_filter ha)
  rw [hA, hB, hidem]
  exact ⟨rfl, rfl⟩

/-- The concrete batch for the C9 witness: three numeric rows, the
middle one with the NaN concentration `(0, nan)`. -/
def rows9 : List (List Cell) :=
  [[Cell.num (PFloat.fin 10), Cell.num (PFloat.fin 1)],
   [Cell.num (PFloat.fin 0), Cell.num PFloat.nan],
   [Cell.num (PFloat.fin 5), Cell.num (PFloat.fin 2)]]

/-- C9 witness: on `rows9` the normalizer succeeds and gives the same
output as on the batch without the NaN row — the two remaining samples,
sorted by time. -/
theorem c9_witness :
    isOkE (normalize rows9) = true ∧
    normalize rows9 = normalize (rows9.filter noNanRow) ∧
    normalize rows9 = .ok [(PFloat.fin 5, PFloat.fin 2), (PFloat.fin 10, PFloat.fin 1)] := by
  have h := c9_nan_rows_dropped rows9
    (by intro r hr; fin_cases hr <;> rfl)
    (by intro r hr; fin_cases hr <;> (intro f hf; fin_cases hf <;> simp))
  exact ⟨h.1, h.2, rfl⟩

end RateCalc
